import Mathlib

/-!
Verification of the Hulubedeje hospital-management API core
(`src/schemas.py`, `src/main.py`).

The schema layer (pydantic models in `schemas.py`) is embedded as a
declarative schema table consulted by a single generic `validate`
routine, exactly as the twelve models behave: required fields must be
present with the declared type, optional fields receive their declared
default, `Literal` fields must lie in their enumeration, and
`default_factory=datetime.utcnow` fields receive the validation-time
clock when absent.

The document gateway (`database.py`, whose source is not part of this
repository snapshot; only its callers in `main.py` are) is modelled
from the specification's Document Gateway contract: insert with a
store-generated identifier, and filtered list with a limit where an
empty filter matches everything.

Dates and timestamps are represented as natural-number codes; floats
are represented as rationals (only exact constants such as the default
`0.0` occur in the properties considered).
-/

/-- A JSON-ish value as it appears in payloads and stored documents.
Sub-record dictionaries (pydantic `dict`, never validated field-wise by
the code) carry primitive-valued entries. -/
inductive SVal where
  | sStr (s : String)
  | sInt (n : Int)
  | sFloat (q : Rat)
  | sBool (b : Bool)
deriving DecidableEq, Repr

/-- Field values of the twelve schemas: none (JSON null), string, int,
float (as `Rat`), bool, date, datetime (as `Nat` codes), list of
strings, and list of unvalidated dictionaries. -/
inductive Value where
  | vNone
  | vStr (s : String)
  | vInt (n : Int)
  | vFloat (q : Rat)
  | vBool (b : Bool)
  | vDate (n : Nat)
  | vDatetime (n : Nat)
  | vListStr (xs : List String)
  | vListDict (xs : List (List (String × SVal)))
deriving DecidableEq, Repr

/-- The declared type of a schema field, from the pydantic annotations in
`schemas.py`. -/
inductive FieldType where
  | tStr
  | tEmail
  | tInt
  | tFloat
  | tBool
  | tDate
  | tDatetime
  | tEnum (vals : List String)
  | tListStr
  | tListDict
deriving DecidableEq, Repr

/-- One row of a schema table: field name, declared type, whether `None`
is admitted (`Optional[...]`), the static default if any, and whether the
default is `default_factory=datetime.utcnow` (the validation-time clock). -/
structure FieldSpec where
  name : String
  type : FieldType
  nullable : Bool := false
  dflt : Option Value := none
  dfltNow : Bool := false
deriving DecidableEq, Repr

/-- A field is required exactly when it has no default of either kind,
matching pydantic (`...` / no default value). -/
def FieldSpec.isRequired (f : FieldSpec) : Bool :=
  f.dflt.isNone && !f.dfltNow

/-- Split a character list at every occurrence of a separator, keeping
empty segments (the behavior of Python's `str.split` on a separator). -/
def splitOnChar (c : Char) : List Char → List (List Char)
  | [] => [[]]
  | x :: xs =>
      match splitOnChar c xs with
      | [] => [[x]]
      | y :: ys => if x = c then [] :: y :: ys else (x :: y) :: ys

/-- Simplified `EmailStr` format check: one `@`, non-empty local part,
domain with at least two non-empty dot-separated labels. -/
def isEmail (s : String) : Bool :=
  match splitOnChar '@' s.data with
  | [lp, dom] =>
      let labels := splitOnChar '.' dom
      !lp.isEmpty && decide (labels.length ≥ 2) && labels.all (fun l => !l.isEmpty)
  | _ => false

/-- Does a value fit a declared field type? `Literal` enumerations accept
exactly the listed strings; `float` accepts an int (pydantic numeric
widening); everything else matches its own constructor. -/
def typeOk (t : FieldType) (v : Value) : Bool :=
  match t, v with
  | .tStr, .vStr _ => true
  | .tEmail, .vStr s => isEmail s
  | .tInt, .vInt _ => true
  | .tFloat, .vFloat _ => true
  | .tFloat, .vInt _ => true
  | .tBool, .vBool _ => true
  | .tDate, .vDate _ => true
  | .tDatetime, .vDatetime _ => true
  | .tEnum vals, .vStr s => vals.contains s
  | .tListStr, .vListStr _ => true
  | .tListDict, .vListDict _ => true
  | _, _ => false

/-- A present value is acceptable for a field when it fits the declared
type, or is `None` and the field is `Optional`. -/
def fieldOk (f : FieldSpec) (v : Value) : Bool :=
  (f.nullable && v == Value.vNone) || typeOk f.type v

/-- Raw payloads and canonical records are ordered field maps. -/
abbrev Payload := List (String × Value)

/-- First value bound to a key, as in a JSON object / Mongo document. -/
def lookupField (p : Payload) (k : String) : Option Value :=
  match p.find? (fun kv => kv.1 == k) with
  | some kv => some kv.2
  | none => none

/-- Validate one field of a payload at clock `now`: a present value must
satisfy `fieldOk`; an absent one gets the clock (for
`default_factory=datetime.utcnow` fields), the declared default, or — for
a required field — an error carrying the field's name. -/
def validateField (f : FieldSpec) (p : Payload) (now : Nat) : Except String Value :=
  match lookupField p f.name with
  | some v => if fieldOk f v then .ok v else .error f.name
  | none =>
      if f.dfltNow then .ok (Value.vDatetime now)
      else
        match f.dflt with
        | some d => .ok d
        | none => .error f.name

/-- Walk the schema in declaration order, accumulating the names of all
offending fields and the canonical entries of the accepted ones
(pydantic reports every failing field of the payload at once). -/
def validateFields (schema : List FieldSpec) (p : Payload) (now : Nat) :
    List String × Payload :=
  match schema with
  | [] => ([], [])
  | f :: rest =>
      let r := validateFields rest p now
      match validateField f p now with
      | .error e => (e :: r.1, r.2)
      | .ok v => (r.1, (f.name, v) :: r.2)

/-- Generic validation of a payload against a schema table at clock
`now`: fails with the names of all offending fields, and on success
produces the canonical record with defaults applied, in schema order.
Extra payload fields are ignored, as pydantic ignores undeclared
fields. -/
def validate (schema : List FieldSpec) (p : Payload) (now : Nat) :
    Except (List String) Payload :=
  let r := validateFields schema p now
  if r.1 = [] then .ok r.2 else .error r.1

/-- A document satisfies a schema's constraints when every required field
is present and every present schema field has an acceptable value. -/
def satisfiesSchema (schema : List FieldSpec) (r : Payload) : Bool :=
  schema.all (fun f =>
    match lookupField r f.name with
    | some v => fieldOk f v
    | none => !f.isRequired)

/-- Sanity condition on one schema row: a static default fits its own
field, and a clock-defaulted field is a timestamp. -/
def wellFormedField (f : FieldSpec) : Bool :=
  (match f.dflt with
   | some d => fieldOk f d
   | none => true) &&
  (!f.dfltNow || f.type == FieldType.tDatetime)

/-- Sanity condition on a schema table, satisfied by every schema of
`schemas.py`. -/
def wellFormedSchema (schema : List FieldSpec) : Bool :=
  schema.all wellFormedField

/-- `class User` of `schemas.py`. -/
def userSchema : List FieldSpec :=
  [ { name := "email", type := .tEmail },
    { name := "password_hash", type := .tStr },
    { name := "full_name", type := .tStr },
    { name := "role",
      type := .tEnum ["admin", "doctor", "nurse", "pharmacist", "lab", "patient"] },
    { name := "phone", type := .tStr, nullable := true, dflt := some .vNone },
    { name := "is_active", type := .tBool, dflt := some (.vBool true) },
    { name := "verified", type := .tBool, dflt := some (.vBool false) } ]

/-- `class Patient` of `schemas.py`. -/
def patientSchema : List FieldSpec :=
  [ { name := "user_id", type := .tStr, nullable := true, dflt := some .vNone },
    { name := "first_name", type := .tStr },
    { name := "last_name", type := .tStr },
    { name := "gender", type := .tEnum ["male", "female", "other"] },
    { name := "dob", type := .tDate, nullable := true, dflt := some .vNone },
    { name := "blood_group", type := .tStr, nullable := true, dflt := some .vNone },
    { name := "address", type := .tStr, nullable := true, dflt := some .vNone },
    { name := "city", type := .tStr, nullable := true, dflt := some .vNone },
    { name := "country", type := .tStr, nullable := true, dflt := some (.vStr "Ethiopia") },
    { name := "emergency_contact", type := .tStr, nullable := true, dflt := some .vNone },
    { name := "medical_history", type := .tListStr, nullable := true,
      dflt := some (.vListStr []) },
    { name := "allergies", type := .tListStr, nullable := true, dflt := some (.vListStr []) } ]

/-- `class Doctor` of `schemas.py`. -/
def doctorSchema : List FieldSpec :=
  [ { name := "user_id", type := .tStr, nullable := true, dflt := some .vNone },
    { name := "first_name", type := .tStr },
    { name := "last_name", type := .tStr },
    { name := "specialty", type := .tStr },
    { name := "bio", type := .tStr, nullable := true, dflt := some .vNone },
    { name := "availability", type := .tListStr, nullable := true,
      dflt := some (.vListStr []) } ]

/-- `class Appointment` of `schemas.py`. -/
def appointmentSchema : List FieldSpec :=
  [ { name := "patient_id", type := .tStr },
    { name := "doctor_id", type := .tStr },
    { name := "date", type := .tDate },
    { name := "time_slot", type := .tStr },
    { name := "status", type := .tEnum ["scheduled", "completed", "cancelled"],
      dflt := some (.vStr "scheduled") },
    { name := "reason", type := .tStr, nullable := true, dflt := some .vNone } ]

/-- `class Medicine` of `schemas.py`. -/
def medicineSchema : List FieldSpec :=
  [ { name := "name", type := .tStr },
    { name := "sku", type := .tStr, nullable := true, dflt := some .vNone },
    { name := "description", type := .tStr, nullable := true, dflt := some .vNone },
    { name := "quantity", type := .tInt, dflt := some (.vInt 0) },
    { name := "price", type := .tFloat, dflt := some (.vFloat 0) },
    { name := "expires_on", type := .tDate, nullable := true, dflt := some .vNone } ]

/-- `class Prescription` of `schemas.py`. -/
def prescriptionSchema : List FieldSpec :=
  [ { name := "patient_id", type := .tStr },
    { name := "doctor_id", type := .tStr },
    { name := "medicines", type := .tListDict, dflt := some (.vListDict []) },
    { name := "notes", type := .tStr, nullable := true, dflt := some .vNone } ]

/-- `class LabTest` of `schemas.py`. -/
def labTestSchema : List FieldSpec :=
  [ { name := "patient_id", type := .tStr },
    { name := "doctor_id", type := .tStr },
    { name := "test_type", type := .tStr },
    { name := "status", type := .tEnum ["requested", "in_progress", "completed"],
      dflt := some (.vStr "requested") },
    { name := "result_url", type := .tStr, nullable := true, dflt := some .vNone } ]

/-- `class Invoice` of `schemas.py`. -/
def invoiceSchema : List FieldSpec :=
  [ { name := "patient_id", type := .tStr },
    { name := "amount", type := .tFloat },
    { name := "items", type := .tListDict, dflt := some (.vListDict []) },
    { name := "paid", type := .tBool, dflt := some (.vBool false) },
    { name := "method", type := .tStr, nullable := true, dflt := some .vNone } ]

/-- `class Vital` of `schemas.py`. -/
def vitalSchema : List FieldSpec :=
  [ { name := "patient_id", type := .tStr },
    { name := "temperature_c", type := .tFloat, nullable := true, dflt := some .vNone },
    { name := "pulse_bpm", type := .tInt, nullable := true, dflt := some .vNone },
    { name := "blood_pressure", type := .tStr, nullable := true, dflt := some .vNone },
    { name := "respiration_rate", type := .tInt, nullable := true, dflt := some .vNone },
    { name := "notes", type := .tStr, nullable := true, dflt := some .vNone } ]

/-- `class BedAssignment` of `schemas.py`; `assigned_on` has
`default_factory=datetime.utcnow`. -/
def bedAssignmentSchema : List FieldSpec :=
  [ { name := "patient_id", type := .tStr },
    { name := "ward", type := .tStr },
    { name := "bed_number", type := .tStr },
    { name := "assigned_on", type := .tDatetime, dfltNow := true } ]

/-- `class InventoryItem` of `schemas.py`. -/
def inventoryItemSchema : List FieldSpec :=
  [ { name := "name", type := .tStr },
    { name := "category", type := .tStr, nullable := true, dflt := some .vNone },
    { name := "quantity", type := .tInt, dflt := some (.vInt 0) },
    { name := "threshold", type := .tInt, dflt := some (.vInt 5) },
    { name := "location", type := .tStr, nullable := true, dflt := some .vNone } ]

/-- `class MedicalRecord` of `schemas.py`; `visit_date` has
`default_factory=datetime.utcnow`. -/
def medicalRecordSchema : List FieldSpec :=
  [ { name := "patient_id", type := .tStr },
    { name := "visit_date", type := .tDatetime, dfltNow := true },
    { name := "complaints", type := .tStr, nullable := true, dflt := some .vNone },
    { name := "diagnosis", type := .tStr, nullable := true, dflt := some .vNone },
    { name := "treatment", type := .tStr, nullable := true, dflt := some .vNone },
    { name := "documents", type := .tListStr, nullable := true, dflt := some (.vListStr []) } ]

/-- The Resource Schema Registry: resource kind to schema table, with the
collection name being the lowercase class name as in the `schemas.py`
docstring. -/
def schemaRegistry : List (String × List FieldSpec) :=
  [ ("user", userSchema),
    ("patient", patientSchema),
    ("doctor", doctorSchema),
    ("appointment", appointmentSchema),
    ("medicine", medicineSchema),
    ("prescription", prescriptionSchema),
    ("labtest", labTestSchema),
    ("invoice", invoiceSchema),
    ("vital", vitalSchema),
    ("bedassignment", bedAssignmentSchema),
    ("inventoryitem", inventoryItemSchema),
    ("medicalrecord", medicalRecordSchema) ]

/-! ## Document Gateway

Modelled from the spec: the source of `database.py` (the global handle
`db` and the functions `create_document` and `get_documents` imported by
`main.py`) is not part of this repository snapshot. The model follows the
specification's Document Gateway contract: `insert` persists one record
into the kind's collection and returns a newly generated unique
identifier; `list` returns up to `limit` records whose fields match all
key/value pairs of the filter, an empty filter matching all, with
absence of matches yielding an empty sequence. The store handle is an
`Option DB`: `none` is the unavailable store (`db` falsy in `main.py`). -/

/-- Modelled from the spec: the backing store, a map from collection name
to the ordered list of persisted documents, plus the identifier counter
used for store-generated ids. -/
structure DB where
  nextId : Nat
  colls : List (String × List Payload)
deriving DecidableEq, Repr

/-- Documents of one collection (empty when the collection was never
written). -/
def getColl (db : DB) (c : String) : List Payload :=
  match db.colls.find? (fun kv => kv.1 == c) with
  | some kv => kv.2
  | none => []

/-- Replace (or create) one collection's document list. -/
def updateColls (colls : List (String × List Payload)) (c : String)
    (docs : List Payload) : List (String × List Payload) :=
  match colls with
  | [] => [(c, docs)]
  | kv :: rest => if kv.1 == c then (c, docs) :: rest else kv :: updateColls rest c docs

/-- Modelled from the spec: `create_document(collection, doc)` appends the
document to the collection and returns a newly generated unique
identifier. -/
def create_document (db : DB) (c : String) (doc : Payload) : Nat × DB :=
  (db.nextId,
   { nextId := db.nextId + 1,
     colls := updateColls db.colls c (getColl db c ++ [doc]) })

/-- Does a stored document match every key/value pair of a filter? -/
def matchesFilter (doc : Payload) (filt : List (String × Value)) : Bool :=
  filt.all (fun kv => lookupField doc kv.1 == some kv.2)

/-- Modelled from the spec: `get_documents(collection, filter_dict, limit)`
returns up to `limit` documents of the collection matching the whole
filter; zero matches yield the empty sequence, not an error. -/
def get_documents (db : DB) (c : String) (filt : List (String × Value))
    (limit : Nat) : List Payload :=
  ((getColl db c).filter (fun d => matchesFilter d filt)).take limit

/-! ## Endpoints of `main.py` -/

/-- Response of `POST /auth/login`: 401 `Invalid credentials`, or 200 with
the found user's `role`, `email` and `full_name` (each read with
`dict.get`, hence optional). -/
inductive LoginResp where
  | unauthorized
  | ok (role : Option Value) (email : Option Value) (full_name : Option Value)
deriving DecidableEq, Repr

/-- `login` of `main.py`: look the email up in the `user` collection with
limit 1 (an unavailable store yields `[]`); empty means 401; otherwise
200 with the first user's fields. The password is never read. -/
def login (dbOpt : Option DB) (email : String) (_password : String) : LoginResp :=
  let users :=
    match dbOpt with
    | some db => get_documents db "user" [("email", Value.vStr email)] 1
    | none => []
  match users with
  | [] => .unauthorized
  | u :: _ => .ok (lookupField u "role") (lookupField u "email") (lookupField u "full_name")

/-- Response of `POST /auth/signup`: 500 `Database not available`, 400
`Email already registered`, or 200 with the new user id. -/
inductive SignupResp where
  | serverError
  | badRequest
  | ok (user_id : Nat)
deriving DecidableEq, Repr

/-- The document `signup` of `main.py` builds and persists: the request's
fields verbatim (the role string unchecked), plus `is_active`, `verified`
and the creation timestamps. -/
def signupDoc (email password full_name role : String) (now : Nat) : Payload :=
  [ ("email", .vStr email),
    ("password_hash", .vStr password),
    ("full_name", .vStr full_name),
    ("role", .vStr role),
    ("is_active", .vBool true),
    ("verified", .vBool false),
    ("created_at", .vDatetime now),
    ("updated_at", .vDatetime now) ]

/-- `signup` of `main.py`: 500 when the store is unavailable; 400 when a
user with the email already exists (lookup with limit 1); otherwise
insert the signup document into `user` and return the generated id. -/
def signup (dbOpt : Option DB) (email password full_name role : String)
    (now : Nat) : SignupResp × Option DB :=
  match dbOpt with
  | none => (.serverError, none)
  | some db =>
      if get_documents db "user" [("email", Value.vStr email)] 1 = [] then
        let r := create_document db "user" (signupDoc email password full_name role now)
        (.ok r.1, some r.2)
      else (.badRequest, some db)

/-- Response of a resource create endpoint: 422 with the offending field
names when the pydantic payload validation fails (framework-level), 500
when the store is unavailable, or 200 with the new document id. -/
inductive CreateResp where
  | unprocessable (errs : List String)
  | storeError
  | created (id : Nat)
deriving DecidableEq, Repr

/-- A resource create endpoint of `main.py` (e.g. `create_patient`):
FastAPI validates the payload against the resource schema before the
handler runs; only a canonical record is handed to `create_document`.
On validation failure nothing is inserted and the store is unchanged. -/
def createResource (schema : List FieldSpec) (c : String) (dbOpt : Option DB)
    (p : Payload) (now : Nat) : CreateResp × Option DB :=
  match validate schema p now with
  | .error errs => (.unprocessable errs, dbOpt)
  | .ok rec =>
      match dbOpt with
      | none => (.storeError, none)
      | some db =>
          let r := create_document db c rec
          (.created r.1, some r.2)

/-- `create_patient` of `main.py`. -/
def create_patient (dbOpt : Option DB) (p : Payload) (now : Nat) :
    CreateResp × Option DB :=
  createResource patientSchema "patient" dbOpt p now

/-- `list_medical_records` of `main.py` (`GET /ehr/records`): the filter
is `{patient_id: X}` when the query parameter is present and truthy
(Python: `None` and the empty string are falsy), empty otherwise; then
`get_documents("medicalrecord", filt, limit=200)`. -/
def list_medical_records (db : DB) (patient_id : Option String) : List Payload :=
  let filt :=
    match patient_id with
    | some s => if s ≠ "" then [("patient_id", Value.vStr s)] else []
    | none => []
  get_documents db "medicalrecord" filt 200

/-! ## Lemmas about the validator -/

theorem lookupField_cons_self (k : String) (v : Value) (r : Payload) :
    lookupField ((k, v) :: r) k = some v := by
  simp [lookupField]

theorem lookupField_cons_ne {k k' : String} (v : Value) (r : Payload)
    (h : k' ≠ k) : lookupField ((k, v) :: r) k' = lookupField r k' := by
  simp only [lookupField, List.find?]
  have hb : ((k, v).1 == k') = false := by
    simp [Ne.symm h]
  rw [hb]

theorem validateField_ok_fieldOk {f : FieldSpec} {p : Payload} {now : Nat} {v : Value}
    (hwf : wellFormedField f = true) (h : validateField f p now = Except.ok v) :
    fieldOk f v = true := by
  unfold wellFormedField at hwf
  rw [Bool.and_eq_true] at hwf
  unfold validateField at h
  split at h
  next w _ =>
    split at h
    next hok =>
      cases h
      exact hok
    next => exact Except.noConfusion h
  next =>
    split at h
    next hn =>
      cases h
      have ht : f.type = FieldType.tDatetime := by
        have h2 := hwf.2
        rw [hn] at h2
        simpa using h2
      simp [fieldOk, ht, typeOk]
    next hn =>
      split at h
      next d hd =>
        cases h
        have h1 := hwf.1
        rw [hd] at h1
        exact h1
      next => exact Except.noConfusion h

theorem validateFields_err_cons {f : FieldSpec} {rest : List FieldSpec} {p : Payload}
    {now : Nat} (hnil : (validateFields (f :: rest) p now).1 = []) :
    (∃ v, validateField f p now = Except.ok v) ∧
      (validateFields rest p now).1 = [] := by
  unfold validateFields at hnil
  cases hv : validateField f p now with
  | error e => rw [hv] at hnil; simp at hnil
  | ok v => rw [hv] at hnil; exact ⟨⟨v, rfl⟩, hnil⟩

theorem validateFields_mem_error {schema : List FieldSpec} {p : Payload} {now : Nat}
    {f : FieldSpec} {e : String} (hf : f ∈ schema)
    (he : validateField f p now = Except.error e) :
    e ∈ (validateFields schema p now).1 := by
  induction schema with
  | nil => cases hf
  | cons g rest ih =>
      cases hf with
      | head =>
          unfold validateFields
          rw [he]
          exact List.mem_cons_self _ _
      | tail _ hf' =>
          have hm := ih hf'
          unfold validateFields
          cases hv : validateField g p now with
          | error e' => exact List.mem_cons_of_mem _ hm
          | ok v => exact hm

theorem validate_error_named {schema : List FieldSpec} {p : Payload} {now : Nat}
    {f : FieldSpec} {e : String} (hf : f ∈ schema)
    (he : validateField f p now = Except.error e) :
    ∃ errs, validate schema p now = Except.error errs ∧ e ∈ errs := by
  have hm := validateFields_mem_error hf he
  refine ⟨(validateFields schema p now).1, ?_, hm⟩
  unfold validate
  rw [if_neg (List.ne_nil_of_mem hm)]

theorem validateField_missing_required {f : FieldSpec} {p : Payload} (now : Nat)
    (hreq : f.isRequired = true) (hmiss : lookupField p f.name = none) :
    validateField f p now = Except.error f.name := by
  unfold FieldSpec.isRequired at hreq
  rw [Bool.and_eq_true] at hreq
  have hnow : f.dfltNow = false := by simpa using hreq.2
  have hd : f.dflt = none := by simpa [Option.isNone_iff_eq_none] using hreq.1
  simp [validateField, hmiss, hnow, hd]

theorem validateField_bad_value {f : FieldSpec} {p : Payload} {now : Nat} {v : Value}
    (hl : lookupField p f.name = some v) (hbad : fieldOk f v = false) :
    validateField f p now = Except.error f.name := by
  simp [validateField, hl, hbad]

theorem satisfiesSchema_cons_irrelevant {rest : List FieldSpec} {nm : String} {v : Value}
    {r : Payload} (h : ∀ f ∈ rest, f.name ≠ nm) :
    satisfiesSchema rest ((nm, v) :: r) = satisfiesSchema rest r := by
  induction rest with
  | nil => rfl
  | cons g gs ih =>
      unfold satisfiesSchema
      rw [List.all_cons, List.all_cons]
      have hg : g.name ≠ nm := h g (List.mem_cons_self _ _)
      rw [lookupField_cons_ne v r hg]
      have := ih (fun f hf => h f (List.mem_cons_of_mem _ hf))
      unfold satisfiesSchema at this
      rw [this]

theorem validateFields_satisfies {schema : List FieldSpec} {p : Payload} {now : Nat}
    (hwf : wellFormedSchema schema = true)
    (hnd : (schema.map FieldSpec.name).Nodup)
    (hnil : (validateFields schema p now).1 = []) :
    satisfiesSchema schema (validateFields schema p now).2 = true := by
  induction schema with
  | nil => rfl
  | cons f rest ih =>
      obtain ⟨⟨v, hv⟩, hnil'⟩ := validateFields_err_cons hnil
      have hwf' : wellFormedField f = true ∧ wellFormedSchema rest = true := by
        simpa [wellFormedSchema, List.all_cons] using hwf
      have hnd' : f.name ∉ rest.map FieldSpec.name ∧
          (rest.map FieldSpec.name).Nodup := by
        simpa [List.nodup_cons] using hnd
      have hrec : (validateFields (f :: rest) p now).2 =
          (f.name, v) :: (validateFields rest p now).2 := by
        simp only [validateFields, hv]
      rw [hrec]
      unfold satisfiesSchema
      rw [List.all_cons]
      have hhead : (match lookupField ((f.name, v) :: (validateFields rest p now).2) f.name with
          | some w => fieldOk f w
          | none => !f.isRequired) = true := by
        rw [lookupField_cons_self]
        exact validateField_ok_fieldOk hwf'.1 hv
      rw [hhead]
      have hne : ∀ g ∈ rest, g.name ≠ f.name := by
        intro g hg hgn
        exact hnd'.1 (hgn ▸ List.mem_map_of_mem FieldSpec.name hg)
      have htail := satisfiesSchema_cons_irrelevant (v := v)
          (r := (validateFields rest p now).2) hne
      unfold satisfiesSchema at htail
      rw [htail]
      have := ih hwf'.2 hnd'.2 hnil'
      unfold satisfiesSchema at this
      rw [this]
      rfl

theorem validate_ok_satisfies {schema : List FieldSpec} {p : Payload} {now : Nat}
    {r : Payload} (hwf : wellFormedSchema schema = true)
    (hnd : (schema.map FieldSpec.name).Nodup)
    (h : validate schema p now = Except.ok r) :
    satisfiesSchema schema r = true := by
  unfold validate at h
  by_cases hnil : (validateFields schema p now).1 = []
  · rw [if_pos hnil] at h
    cases h
    exact validateFields_satisfies hwf hnd hnil
  · rw [if_neg hnil] at h
    cases h

theorem validateFields_lookup {schema : List FieldSpec} {p : Payload} {now : Nat}
    {f : FieldSpec} (hf : f ∈ schema)
    (hnd : (schema.map FieldSpec.name).Nodup)
    (hnil : (validateFields schema p now).1 = []) :
    ∃ v, validateField f p now = Except.ok v ∧
      lookupField (validateFields schema p now).2 f.name = some v := by
  induction schema with
  | nil => cases hf
  | cons g rest ih =>
      obtain ⟨⟨w, hw⟩, hnil'⟩ := validateFields_err_cons hnil
      have hrec : (validateFields (g :: rest) p now).2 =
          (g.name, w) :: (validateFields rest p now).2 := by
        simp only [validateFields, hw]
      have hnd' : g.name ∉ rest.map FieldSpec.name ∧
          (rest.map FieldSpec.name).Nodup := by
        simpa [List.nodup_cons] using hnd
      cases hf with
      | head =>
          exact ⟨w, hw, by rw [hrec, lookupField_cons_self]⟩
      | tail _ hf' =>
          obtain ⟨v, hv, hlk⟩ := ih hf' hnd'.2 hnil'
          refine ⟨v, hv, ?_⟩
          rw [hrec, lookupField_cons_ne _ _ ?_, hlk]
          intro hEq
          exact hnd'.1 (hEq ▸ List.mem_map_of_mem FieldSpec.name hf')

theorem validate_ok_lookup {schema : List FieldSpec} {p : Payload} {now : Nat}
    {r : Payload} {f : FieldSpec} (hf : f ∈ schema)
    (hnd : (schema.map FieldSpec.name).Nodup)
    (h : validate schema p now = Except.ok r) :
    ∃ v, validateField f p now = Except.ok v ∧ lookupField r f.name = some v := by
  unfold validate at h
  by_cases hnil : (validateFields schema p now).1 = []
  · rw [if_pos hnil] at h
    cases h
    exact validateFields_lookup hf hnd hnil
  · rw [if_neg hnil] at h
    cases h

theorem validateField_now_invariant {f : FieldSpec} {p : Payload} (now now2 : Nat)
    (h : f.dfltNow = false ∨ (lookupField p f.name).isSome = true) :
    validateField f p now = validateField f p now2 := by
  unfold validateField
  cases hl : lookupField p f.name with
  | some w => rfl
  | none =>
      have hn : f.dfltNow = false := by
        cases h with
        | inl h => exact h
        | inr h => rw [hl] at h; simp at h
      rw [hn]
      simp

theorem validateFields_now_invariant {schema : List FieldSpec} {p : Payload}
    (now now2 : Nat)
    (h : ∀ f ∈ schema, f.dfltNow = false ∨ (lookupField p f.name).isSome = true) :
    validateFields schema p now = validateFields schema p now2 := by
  induction schema with
  | nil => rfl
  | cons f rest ih =>
      unfold validateFields
      rw [ih (fun g hg => h g (List.mem_cons_of_mem _ hg)),
          validateField_now_invariant now now2 (h f (List.mem_cons_self _ _))]

/-! ## Lemmas about the gateway -/

theorem find?_updateColls (colls : List (String × List Payload)) (c : String)
    (docs : List Payload) :
    (updateColls colls c docs).find? (fun kv => kv.1 == c) = some (c, docs) := by
  induction colls with
  | nil => simp [updateColls, List.find?]
  | cons kv rest ih =>
      unfold updateColls
      by_cases h : kv.1 = c
      · rw [if_pos (by simp [h])]
        simp [List.find?]
      · rw [if_neg (by simp [h])]
        rw [List.find?_cons_of_neg _ (by simp [h])]
        exact ih

theorem getColl_create (db : DB) (c : String) (doc : Payload) :
    getColl (create_document db c doc).2 c = getColl db c ++ [doc] := by
  simp [create_document, getColl, find?_updateColls]

theorem matchesFilter_nil (d : Payload) : matchesFilter d [] = true := rfl

theorem matchesFilter_singleton (d : Payload) (k : String) (v : Value) :
    matchesFilter d [(k, v)] = true ↔ lookupField d k = some v := by
  simp [matchesFilter]

theorem matchesFilter_signupDoc (email pw fn role : String) (now : Nat) :
    matchesFilter (signupDoc email pw fn role now)
      [("email", Value.vStr email)] = true := by
  simp [matchesFilter, signupDoc, lookupField, List.find?]

/-! ## Claims -/

/-- Claim C1, counterexample: the claim is false as stated. The signup
endpoint builds the user document from its own request model, whose role
is an unconstrained string; signing up with role `hacker` succeeds and
persists a user document that violates the User schema's role
enumeration. -/
theorem C1_counterexample :
    (signup (some { nextId := 0, colls := [] })
        "alice@example.com" "pw" "Alice" "hacker" 0).1 = SignupResp.ok 0 ∧
    (signup (some { nextId := 0, colls := [] })
        "alice@example.com" "pw" "Alice" "hacker" 0).2 =
      some { nextId := 1,
             colls := [("user",
               [signupDoc "alice@example.com" "pw" "Alice" "hacker" 0])] } ∧
    satisfiesSchema userSchema
      (signupDoc "alice@example.com" "pw" "Alice" "hacker" 0) = false := by
  refine ⟨rfl, rfl, by decide⟩

/-- Claim C1 (amended): every canonical record produced by a successful
schema validation satisfies its kind's required-field, type and enum
constraints — for any well-formed schema with distinct field names, which
all twelve registry schemas are — so no invalid record is persisted
through the validated create endpoints; the signup endpoint, however,
stores the supplied role string verbatim in the user document without
checking it against the User enumeration. -/
theorem C1_theorem (schema : List FieldSpec) (p : Payload) (now : Nat) (r : Payload)
    (hwf : wellFormedSchema schema = true)
    (hnd : (schema.map FieldSpec.name).Nodup)
    (h : validate schema p now = Except.ok r) :
    satisfiesSchema schema r = true ∧
    ∀ email pw fn role t,
      lookupField (signupDoc email pw fn role t) "role" = some (Value.vStr role) :=
  ⟨validate_ok_satisfies hwf hnd h, fun _ _ _ _ _ => rfl⟩

/-- Witness for C1 at a concrete valid user payload. -/
theorem C1_theorem_witness :
    satisfiesSchema userSchema
      [("email", Value.vStr "bob@example.com"), ("password_hash", Value.vStr "h"),
       ("full_name", Value.vStr "Bob"), ("role", Value.vStr "nurse"),
       ("phone", Value.vNone), ("is_active", Value.vBool true),
       ("verified", Value.vBool false)] = true ∧
    ∀ email pw fn role t,
      lookupField (signupDoc email pw fn role t) "role" = some (Value.vStr role) :=
  C1_theorem userSchema
    [("email", Value.vStr "bob@example.com"), ("password_hash", Value.vStr "h"),
     ("full_name", Value.vStr "Bob"), ("role", Value.vStr "nurse")] 0
    [("email", Value.vStr "bob@example.com"), ("password_hash", Value.vStr "h"),
     ("full_name", Value.vStr "Bob"), ("role", Value.vStr "nurse"),
     ("phone", Value.vNone), ("is_active", Value.vBool true),
     ("verified", Value.vBool false)]
    (by decide) (by decide) rfl

/-- Claim C2: a payload missing a required field of its resource kind
fails validation with an error naming that field, the create endpoint
answers 422, and the store is left unchanged (no insert occurs). -/
theorem C2_theorem (schema : List FieldSpec) (c : String) (dbOpt : Option DB)
    (p : Payload) (now : Nat) (f : FieldSpec)
    (hf : f ∈ schema) (hreq : f.isRequired = true)
    (hmiss : lookupField p f.name = none) :
    (∃ errs, validate schema p now = Except.error errs ∧ f.name ∈ errs) ∧
    (createResource schema c dbOpt p now).2 = dbOpt ∧
    ∃ errs, (createResource schema c dbOpt p now).1 = CreateResp.unprocessable errs := by
  have he := validateField_missing_required now hreq hmiss
  obtain ⟨errs, hv, hm⟩ := validate_error_named hf he
  exact ⟨⟨errs, hv, hm⟩, by simp [createResource, hv], errs, by simp [createResource, hv]⟩

/-- Witness for C2: a Patient payload without `first_name`. -/
theorem C2_theorem_witness :
    (∃ errs, validate patientSchema
        [("last_name", Value.vStr "Kebede"), ("gender", Value.vStr "male")] 0
        = Except.error errs ∧ "first_name" ∈ errs) ∧
    (create_patient (some { nextId := 0, colls := [] })
        [("last_name", Value.vStr "Kebede"), ("gender", Value.vStr "male")] 0).2
      = some { nextId := 0, colls := [] } ∧
    ∃ errs, (create_patient (some { nextId := 0, colls := [] })
        [("last_name", Value.vStr "Kebede"), ("gender", Value.vStr "male")] 0).1
      = CreateResp.unprocessable errs :=
  C2_theorem patientSchema "patient" (some { nextId := 0, colls := [] })
    [("last_name", Value.vStr "Kebede"), ("gender", Value.vStr "male")] 0
    { name := "first_name", type := FieldType.tStr }
    (by decide) (by decide) (by decide)

/-- Claim C3: signup with an email absent from the user collection
succeeds, returning the store-generated identifier; a second signup with
the same email answers 400 and performs no second insert, leaving the
store exactly as after the first signup. -/
theorem C3_theorem (db : DB) (email pw fn role : String) (now : Nat)
    (hfresh : get_documents db "user" [("email", Value.vStr email)] 1 = []) :
    ∃ db2,
      signup (some db) email pw fn role now = (SignupResp.ok db.nextId, some db2) ∧
      ∀ pw2 fn2 role2 now2,
        signup (some db2) email pw2 fn2 role2 now2 = (SignupResp.badRequest, some db2) := by
  have hfilt : (getColl db "user").filter
      (fun d => matchesFilter d [("email", Value.vStr email)]) = [] := by
    have h1 := hfresh
    unfold get_documents at h1
    rcases List.take_eq_nil_iff.mp h1 with h2 | h2
    · exact absurd h2 one_ne_zero
    · exact h2
  refine ⟨(create_document db "user" (signupDoc email pw fn role now)).2, ?_, ?_⟩
  · simp only [signup]
    rw [if_pos hfresh]
    rfl
  · intro pw2 fn2 role2 now2
    have hget : get_documents
        (create_document db "user" (signupDoc email pw fn role now)).2 "user"
        [("email", Value.vStr email)] 1 = [signupDoc email pw fn role now] := by
      unfold get_documents
      rw [getColl_create, List.filter_append, hfilt]
      simp [matchesFilter_signupDoc]
    simp only [signup]
    rw [hget]
    simp

/-- Witness for C3 on the empty store. -/
theorem C3_theorem_witness :
    ∃ db2,
      signup (some { nextId := 0, colls := [] }) "a@b.co" "pw" "F" "admin" 0
        = (SignupResp.ok 0, some db2) ∧
      ∀ pw2 fn2 role2 now2,
        signup (some db2) "a@b.co" pw2 fn2 role2 now2 = (SignupResp.badRequest, some db2) :=
  C3_theorem { nextId := 0, colls := [] } "a@b.co" "pw" "F" "admin" 0 (by decide)

/-- Claim C4: login with an email matching no stored user answers 401
with no user object; login with an email whose lookup finds a user
answers 200 with that user's role, email and full name; and the supplied
password never influences the response. -/
theorem C4_theorem (db : DB) (email : String) :
    (get_documents db "user" [("email", Value.vStr email)] 1 = [] →
      ∀ pw, login (some db) email pw = LoginResp.unauthorized) ∧
    (∀ u rest, get_documents db "user" [("email", Value.vStr email)] 1 = u :: rest →
      ∀ pw, login (some db) email pw =
        LoginResp.ok (lookupField u "role") (lookupField u "email")
          (lookupField u "full_name")) ∧
    ((∃ u ∈ getColl db "user",
        matchesFilter u [("email", Value.vStr email)] = true) →
      ∀ pw, ∃ role em fn, login (some db) email pw = LoginResp.ok role em fn) ∧
    (∀ pw pw2, login (some db) email pw = login (some db) email pw2) := by
  refine ⟨?_, ?_, ?_, fun _ _ => rfl⟩
  · intro h pw
    simp [login, h]
  · intro u rest h pw
    simp [login, h]
  · rintro ⟨u, hu, hm⟩ pw
    cases hc : (getColl db "user").filter
        (fun d => matchesFilter d [("email", Value.vStr email)]) with
    | nil => exact absurd (List.filter_eq_nil_iff.mp hc u hu hm) (fun h => h)
    | cons w ws =>
        refine ⟨lookupField w "role", lookupField w "email",
          lookupField w "full_name", ?_⟩
        simp [login, get_documents, hc]

/-- A one-user document used to exercise the login path. -/
def bobDoc : Payload :=
  [("email", Value.vStr "bob@b.co"), ("role", Value.vStr "admin"),
   ("full_name", Value.vStr "Bob")]

/-- A store holding exactly the one user document `bobDoc`. -/
def bobDB : DB :=
  { nextId := 1, colls := [("user", [bobDoc])] }

/-- Witness for C4: a store holding one admin user. -/
theorem C4_theorem_witness :
    login (some bobDB) "bob@b.co" "any-password" =
      LoginResp.ok (some (Value.vStr "admin")) (some (Value.vStr "bob@b.co"))
        (some (Value.vStr "Bob")) :=
  (C4_theorem bobDB "bob@b.co").2.1 bobDoc [] (by decide) "any-password"

/-- Claim C5, counterexample: the claim is false as stated. Validation of
a BedAssignment payload without `assigned_on` fills the field from the
validation-time clock, so two validations of the same payload at
different times produce different canonical records. -/
theorem C5_counterexample :
    validate bedAssignmentSchema
        [("patient_id", Value.vStr "p1"), ("ward", Value.vStr "W1"),
         ("bed_number", Value.vStr "3")] 0
      = Except.ok
        [("patient_id", Value.vStr "p1"), ("ward", Value.vStr "W1"),
         ("bed_number", Value.vStr "3"), ("assigned_on", Value.vDatetime 0)] ∧
    validate bedAssignmentSchema
        [("patient_id", Value.vStr "p1"), ("ward", Value.vStr "W1"),
         ("bed_number", Value.vStr "3")] 1
      = Except.ok
        [("patient_id", Value.vStr "p1"), ("ward", Value.vStr "W1"),
         ("bed_number", Value.vStr "3"), ("assigned_on", Value.vDatetime 1)] ∧
    ([("patient_id", Value.vStr "p1"), ("ward", Value.vStr "W1"),
      ("bed_number", Value.vStr "3"), ("assigned_on", Value.vDatetime 0)] : Payload)
      ≠ [("patient_id", Value.vStr "p1"), ("ward", Value.vStr "W1"),
         ("bed_number", Value.vStr "3"), ("assigned_on", Value.vDatetime 1)] :=
  ⟨rfl, rfl, by decide⟩

/-- Claim C5 (amended): validation is a pure function of the payload and
the validation-time clock; whenever no clock-defaulted field
(`BedAssignment.assigned_on`, `MedicalRecord.visit_date`) is left to be
filled in — in particular for every schema without such fields, and for
any payload that supplies them — the canonical record is independent of
the clock, so two validations of the same payload are equal. -/
theorem C5_theorem (schema : List FieldSpec) (p : Payload) (now now2 : Nat)
    (h : ∀ f ∈ schema, f.dfltNow = false ∨ (lookupField p f.name).isSome = true) :
    validate schema p now = validate schema p now2 := by
  unfold validate
  rw [validateFields_now_invariant now now2 h]

/-- Witness for C5: a BedAssignment payload that supplies `assigned_on`
validates identically at clocks 0 and 5. -/
theorem C5_theorem_witness :
    validate bedAssignmentSchema
        [("patient_id", Value.vStr "p1"), ("ward", Value.vStr "W1"),
         ("bed_number", Value.vStr "3"), ("assigned_on", Value.vDatetime 7)] 0
      = validate bedAssignmentSchema
        [("patient_id", Value.vStr "p1"), ("ward", Value.vStr "W1"),
         ("bed_number", Value.vStr "3"), ("assigned_on", Value.vDatetime 7)] 5 :=
  C5_theorem bedAssignmentSchema
    [("patient_id", Value.vStr "p1"), ("ward", Value.vStr "W1"),
     ("bed_number", Value.vStr "3"), ("assigned_on", Value.vDatetime 7)] 0 5
    (by decide)

/-- The `status` row of the Appointment schema. -/
def appointmentStatusField : FieldSpec :=
  { name := "status", type := FieldType.tEnum ["scheduled", "completed", "cancelled"],
    dflt := some (Value.vStr "scheduled") }

/-- Claim C6: an Appointment payload whose `status` value lies outside
the declared enumeration fails validation with an error naming `status`,
and every canonical Appointment record carries a `status` among
`scheduled`, `completed`, `cancelled`. -/
theorem C6_theorem (p : Payload) (now : Nat) :
    (∀ v, lookupField p "status" = some v →
      typeOk (FieldType.tEnum ["scheduled", "completed", "cancelled"]) v = false →
      ∃ errs, validate appointmentSchema p now = Except.error errs ∧ "status" ∈ errs) ∧
    (∀ r, validate appointmentSchema p now = Except.ok r →
      ∃ s, lookupField r "status" = some (Value.vStr s) ∧
        s ∈ ["scheduled", "completed", "cancelled"]) := by
  constructor
  · intro v hl hbad
    refine validate_error_named (f := appointmentStatusField) (by decide) ?_
    exact validateField_bad_value hl (by simp [fieldOk, appointmentStatusField, hbad])
  · intro r hok
    obtain ⟨v, hv, hlk⟩ :=
      validate_ok_lookup (f := appointmentStatusField) (by decide) (by decide) hok
    have hfo : fieldOk appointmentStatusField v = true :=
      validateField_ok_fieldOk (by decide) hv
    cases v with
    | vStr s =>
        refine ⟨s, hlk, ?_⟩
        simpa [fieldOk, appointmentStatusField, typeOk] using hfo
    | vNone => simp [fieldOk, appointmentStatusField, typeOk] at hfo
    | vInt n => simp [fieldOk, appointmentStatusField, typeOk] at hfo
    | vFloat q => simp [fieldOk, appointmentStatusField, typeOk] at hfo
    | vBool b => simp [fieldOk, appointmentStatusField, typeOk] at hfo
    | vDate n => simp [fieldOk, appointmentStatusField, typeOk] at hfo
    | vDatetime n => simp [fieldOk, appointmentStatusField, typeOk] at hfo
    | vListStr xs => simp [fieldOk, appointmentStatusField, typeOk] at hfo
    | vListDict xs => simp [fieldOk, appointmentStatusField, typeOk] at hfo

/-- An Appointment payload with the out-of-enumeration status `pending`. -/
def pendingAppt : Payload :=
  [("patient_id", Value.vStr "p1"), ("doctor_id", Value.vStr "d1"),
   ("date", Value.vDate 10), ("time_slot", Value.vStr "10:30-11:00"),
   ("status", Value.vStr "pending")]

/-- Witness for C6: `status = "pending"` is rejected with an error naming
`status`. -/
theorem C6_theorem_witness :
    ∃ errs, validate appointmentSchema pendingAppt 0 = Except.error errs ∧
      "status" ∈ errs :=
  (C6_theorem pendingAppt 0).1 (Value.vStr "pending") (by decide) (by decide)

/-- The canonical record of a Medicine payload containing only `name`. -/
def paracetamolRecord : Payload :=
  [("name", Value.vStr "Paracetamol"), ("sku", Value.vNone),
   ("description", Value.vNone), ("quantity", Value.vInt 0),
   ("price", Value.vFloat 0), ("expires_on", Value.vNone)]

/-- The canonical record of a Patient payload without `country`. -/
def abebeRecord : Payload :=
  [("user_id", Value.vNone), ("first_name", Value.vStr "Abebe"),
   ("last_name", Value.vStr "Kebede"), ("gender", Value.vStr "male"),
   ("dob", Value.vNone), ("blood_group", Value.vNone), ("address", Value.vNone),
   ("city", Value.vNone), ("country", Value.vStr "Ethiopia"),
   ("emergency_contact", Value.vNone), ("medical_history", Value.vListStr []),
   ("allergies", Value.vListStr [])]

/-- Claim C7: declared defaults are applied to missing optional fields —
a Medicine payload with only `name` validates with `quantity = 0` and
`price = 0.0`, and a Patient payload without `country` validates with
`country = "Ethiopia"`. -/
theorem C7_theorem :
    validate medicineSchema [("name", Value.vStr "Paracetamol")] 0
      = Except.ok paracetamolRecord ∧
    lookupField paracetamolRecord "quantity" = some (Value.vInt 0) ∧
    lookupField paracetamolRecord "price" = some (Value.vFloat 0) ∧
    validate patientSchema
        [("first_name", Value.vStr "Abebe"), ("last_name", Value.vStr "Kebede"),
         ("gender", Value.vStr "male")] 0
      = Except.ok abebeRecord ∧
    lookupField abebeRecord "country" = some (Value.vStr "Ethiopia") :=
  ⟨rfl, rfl, rfl, rfl, rfl⟩

/-- Claim C8: `GET /ehr/records` without `patient_id` returns up to 200
records across all patients (the filter is empty); with `patient_id = X`
every returned record has `patient_id` equal to `X`, and zero matches
yield the empty sequence rather than an error. -/
theorem C8_theorem (db : DB) (x : String) (hx : x ≠ "") :
    list_medical_records db none = (getColl db "medicalrecord").take 200 ∧
    (list_medical_records db none).length ≤ 200 ∧
    (∀ d ∈ list_medical_records db (some x),
      lookupField d "patient_id" = some (Value.vStr x)) ∧
    ((∀ d ∈ getColl db "medicalrecord",
        lookupField d "patient_id" ≠ some (Value.vStr x)) →
      list_medical_records db (some x) = []) := by
  have hall : list_medical_records db none = (getColl db "medicalrecord").take 200 := by
    simp only [list_medical_records, get_documents]
    congr 1
    exact List.filter_eq_self.mpr (fun a _ => matchesFilter_nil a)
  have hsome : list_medical_records db (some x)
      = ((getColl db "medicalrecord").filter
          (fun d => matchesFilter d [("patient_id", Value.vStr x)])).take 200 := by
    simp only [list_medical_records]
    rw [if_pos hx]
    rfl
  refine ⟨hall, ?_, ?_, ?_⟩
  · rw [hall]
    exact List.length_take_le 200 _
  · intro d hd
    rw [hsome] at hd
    have hd2 := List.take_subset _ _ hd
    have hp := List.of_mem_filter hd2
    exact (matchesFilter_singleton d "patient_id" (Value.vStr x)).mp hp
  · intro hnone
    rw [hsome]
    have hfl : (getColl db "medicalrecord").filter
        (fun d => matchesFilter d [("patient_id", Value.vStr x)]) = [] := by
      refine List.filter_eq_nil_iff.mpr ?_
      intro a ha hmf
      exact hnone a ha ((matchesFilter_singleton a "patient_id" (Value.vStr x)).mp hmf)
    rw [hfl]
    rfl

/-- A store with medical records for two different patients. -/
def ehrDB : DB :=
  { nextId := 2,
    colls := [("medicalrecord",
      [[("patient_id", Value.vStr "p1"), ("visit_date", Value.vDatetime 0)],
       [("patient_id", Value.vStr "p2"), ("visit_date", Value.vDatetime 1)]])] }

/-- Witness for C8 on a concrete two-record store and `patient_id = p1`. -/
theorem C8_theorem_witness :
    list_medical_records ehrDB none = (getColl ehrDB "medicalrecord").take 200 ∧
    (list_medical_records ehrDB none).length ≤ 200 ∧
    (∀ d ∈ list_medical_records ehrDB (some "p1"),
      lookupField d "patient_id" = some (Value.vStr "p1")) ∧
    ((∀ d ∈ getColl ehrDB "medicalrecord",
        lookupField d "patient_id" ≠ some (Value.vStr "p1")) →
      list_medical_records ehrDB (some "p1") = []) :=
  C8_theorem ehrDB "p1" (by decide)

/-- Claim C9: with the store unavailable, login answers 401 exactly as
for a non-existent email, while signup answers the 500 store-unavailable
error. -/
theorem C9_theorem (email pw fn role : String) (now : Nat) :
    login none email pw = LoginResp.unauthorized ∧
    signup none email pw fn role now = (SignupResp.serverError, none) ∧
    ∀ db, get_documents db "user" [("email", Value.vStr email)] 1 = [] →
      login (some db) email pw = login none email pw := by
  refine ⟨rfl, rfl, ?_⟩
  intro db h
  simp [login, h]

/-- Witness for C9: on the empty store an available and an unavailable
connection give the same login response. -/
theorem C9_theorem_witness :
    login (some { nextId := 0, colls := [] }) "a@b.co" "x" = login none "a@b.co" "x" :=
  ( C9_theorem "a@b.co" "x" "F" "admin" 0).2.2 { nextId := 0, colls := [] } (by decide)

/-- Claim C10: an empty-string `patient_id` query parameter is falsy in
`list_medical_records`, so it yields the same empty filter — and hence
the same records — as an absent parameter. -/
theorem C10_theorem (db : DB) :
    list_medical_records db (some "") = list_medical_records db none := rfl
